import Mathlib

/-
Shallow embedding of the matching / assignment / AP-metrics core of the
`perception_eval_rs` repository.

Modelling conventions, used consistently below:
* `f64` scalars are modelled as exact rationals (`ℚ`); the source performs
  plain real arithmetic on them and all guards compared here are exact.
* The only square roots the source takes are final Euclidean distances and
  RMS values.  A square root is never stored back into data that is later
  added or multiplied: it is only (a) compared against a threshold, or
  (b) compared against another square root, or (c) tested for zero.  We
  therefore embed the *squared* quantity and translate each comparison by
  the exact characterisations `sqrt s < t ↔ 0 < t ∧ s < t^2`,
  `sqrt a < sqrt b ↔ a < b` and `sqrt s = 0 ↔ s = 0` (for `a b s ≥ 0`),
  keeping every definition executable.
* A Rust `panic!` (out-of-bounds index, `unwrap` on `None`) is modelled by
  the `Crash` monad below; fallible code keeps its `Result`/`Except` type.
-/

namespace PerceptionEval

/-- Squaring, written out so kernel evaluation never passes through the
`Monoid.npow` instance path. -/
def rsq (a : ℚ) : ℚ := a * a

/-- Rational minimum by an explicit comparison (kernel evaluable). -/
def qmin (a b : ℚ) : ℚ := if a ≤ b then a else b

/-- Rational maximum by an explicit comparison (kernel evaluable). -/
def qmax (a b : ℚ) : ℚ := if a ≤ b then b else a

/-- Rational absolute value by an explicit comparison (kernel evaluable). -/
def qabs (a : ℚ) : ℚ := if a < 0 then -a else a

/-- Closed label set of `src/label.rs` (`enum Label`). -/
inductive Label where
  | unknown
  | car
  | truck
  | bus
  | bicycle
  | motorbike
  | pedestrian
  | animal
deriving DecidableEq, Repr

/-- Sensor-frame tags of `src/frame_id.rs` (`enum FrameID`). -/
inductive FrameID where
  | baseLink
  | map
  | camBack
  | camBackLeft
  | camBackRight
  | camFront
  | camFrontLeft
  | camFrontRight
  | camTrafficLightNear
  | camTrafficLightFar
deriving DecidableEq, Repr

/-- A `[f64; 3]` value (position, size or velocity vector). -/
structure Vec3 where
  x : ℚ
  y : ℚ
  z : ℚ
deriving DecidableEq, Repr

/-- A quaternion `[w, x, y, z]` (`[f64; 4]` in the source). -/
structure Quat where
  w : ℚ
  x : ℚ
  y : ℚ
  z : ℚ
deriving DecidableEq, Repr

/-- `DynamicObject` of `src/object/object3d.rs`.  `timestamp` is the
`NaiveDateTime` in microseconds; `size` packs `size[0] (length), size[1]
(width), size[2] (height)` into `x, y, z`. -/
structure DynamicObject where
  timestamp : Int
  frame_id : FrameID
  position : Vec3
  orientation : Quat
  size : Vec3
  velocity : Option Vec3
  confidence : ℚ
  label : Label
  pointcloud_num : Option Int
  uuid : Option String
deriving DecidableEq, Repr

/-- Weak equality: `impl PartialEq for DynamicObject`
(object3d.rs lines 66-78).  It compares only timestamp, frame_id,
position, orientation and label. -/
def DynamicObject.weakEq (a b : DynamicObject) : Bool :=
  decide (a.timestamp = b.timestamp) && decide (a.frame_id = b.frame_id) &&
    decide (a.position = b.position) && decide (a.orientation = b.orientation) &&
    decide (a.label = b.label)

/-- Row-major 3x3 rotation matrix (`RotationMatrix<f64>` of `src/math.rs`). -/
structure Mat3 where
  m00 : ℚ
  m01 : ℚ
  m02 : ℚ
  m10 : ℚ
  m11 : ℚ
  m12 : ℚ
  m20 : ℚ
  m21 : ℚ
  m22 : ℚ
deriving DecidableEq, Repr

/-- `quaternion2rotation` (math.rs lines 26-39), entries listed row major
exactly as in the `RotationMatrix::new` call. -/
def quaternion2rotation (q : Quat) : Mat3 :=
  { m00 := 2 * (rsq q.w + rsq q.x) - 1
    m01 := 2 * (q.x * q.y - q.w * q.z)
    m02 := 2 * (q.x * q.z + q.w * q.y)
    m10 := 2 * (q.x * q.y + q.w * q.z)
    m11 := 2 * (rsq q.w + rsq q.y) - 1
    m12 := 2 * (q.y * q.z - q.w * q.x)
    m20 := 2 * (q.x * q.z - q.w * q.y)
    m21 := 2 * (q.y * q.z + q.w * q.x)
    m22 := 2 * (rsq q.w + rsq q.z) - 1 }

/-- Row-vector times matrix, as in `corner * rot` (object3d.rs line 441). -/
def rowMul (c : Vec3) (m : Mat3) : Vec3 :=
  { x := c.x * m.m00 + c.y * m.m10 + c.z * m.m20
    y := c.x * m.m01 + c.y * m.m11 + c.z * m.m21
    z := c.x * m.m02 + c.y * m.m12 + c.z * m.m22 }

/-- Componentwise vector addition, as in `corner * rot + position`. -/
def vadd (a b : Vec3) : Vec3 :=
  { x := a.x + b.x, y := a.y + b.y, z := a.z + b.z }

/-- `DynamicObject::rotation_matrix` (object3d.rs lines 359-361). -/
def DynamicObject.rotation_matrix (o : DynamicObject) : Mat3 :=
  quaternion2rotation o.orientation

/-- `DynamicObject::footprint` (object3d.rs lines 418-445): the four
half-extent corner rows `(±size[1]/2, ±size[0]/2, 0)`, in source order,
rotated and then translated by the center. -/
def DynamicObject.footprint (o : DynamicObject) : List Vec3 :=
  let halfW := o.size.y * (1 / 2)
  let halfL := o.size.x * (1 / 2)
  let corners : List Vec3 :=
    [⟨halfW, halfL, 0⟩, ⟨-halfW, halfL, 0⟩, ⟨-halfW, -halfL, 0⟩, ⟨halfW, -halfL, 0⟩]
  let rot := o.rotation_matrix
  corners.map fun c => vadd (rowMul c rot) o.position

/-- `DynamicObject::area` (object3d.rs lines 143-145): `size[0] * size[1]`. -/
def DynamicObject.area (o : DynamicObject) : ℚ := o.size.x * o.size.y

/-- `DynamicObject::volume` (object3d.rs lines 171-173): `area * size[2]`. -/
def DynamicObject.volume (o : DynamicObject) : ℚ := o.area * o.size.z

/-- Squared value of `distance_points` (point.rs lines 14-21); the source
returns the square root of this sum. -/
def distance_points_sq (p q : Vec3) : ℚ :=
  rsq (p.x - q.x) + rsq (p.y - q.y) + rsq (p.z - q.z)

/-- Squared value of `distance_points_bev` (point.rs lines 36-44); only the
first two coordinates enter. -/
def distance_points_bev_sq (p q : Vec3) : ℚ :=
  rsq (p.x - q.x) + rsq (p.y - q.y)

/-- `get_point_left_right` (point.rs lines 61-71): splits two points into
(left, right) by the sign of their 2D cross product. -/
def get_point_left_right (p1 p2 : Vec3) : Vec3 × Vec3 :=
  let cross := p1.x * p2.y - p1.y * p2.x
  if cross < 0 then (p1, p2) else (p2, p1)

/-! ## Matching strategies (`src/matching.rs`) -/

/-- Sort key of the `sort_func` closure in
`PlaneDistanceMatching::calculate_matching_score` (matching.rs lines 75-79):
the source compares `hypot(p[0], p[1])` values, which orders exactly like
the squared BEV norm embedded here. -/
def bevNormSq (p : Vec3) : ℚ := rsq p.x + rsq p.y

/-- Stable insertion of a point into a list sorted by `bevNormSq`
ascending: the new element goes after existing elements with an equal key,
matching the stability guarantee of Rust's `sort_by`. -/
def insertByBevNorm (p : Vec3) : List Vec3 → List Vec3
  | [] => [p]
  | q :: rest =>
      if bevNormSq p < bevNormSq q then p :: q :: rest
      else q :: insertByBevNorm p rest

/-- Stable sort by `bevNormSq` ascending (`footprint.sort_by(sort_func)`). -/
def sortByBevNorm : List Vec3 → List Vec3
  | [] => []
  | p :: rest => insertByBevNorm p (sortByBevNorm rest)

/-- `CenterDistanceMatching::calculate_matching_score` (matching.rs lines
47-53) returns `sqrt` of this squared center distance. -/
def centerDistanceScoreSq (e g : DynamicObject) : ℚ :=
  distance_points_sq e.position g.position

/-- `CenterDistanceMatching::is_better_than` (matching.rs lines 55-63):
`distance < threshold` with `distance = sqrt scoreSq`, embedded by the
exact characterisation `sqrt s < t ↔ 0 < t ∧ s < t^2`. -/
def centerDistanceIsBetterThan (e g : DynamicObject) (t : ℚ) : Bool :=
  decide (0 < t) && decide (centerDistanceScoreSq e g < rsq t)

/-- `PlaneDistanceMatching::calculate_matching_score` (matching.rs lines
70-97) returns `sqrt` of this value: both footprints are sorted by BEV
norm, the two nearest corners are split into (left, right) and the RMS of
the two corner distances is formed.  `distance_points_bev(..).abs()`
squared is exactly the squared BEV distance. -/
def planeDistanceScoreSq (e g : DynamicObject) : ℚ :=
  match sortByBevNorm e.footprint, sortByBevNorm g.footprint with
  | e0 :: e1 :: _, g0 :: g1 :: _ =>
      let ep := get_point_left_right e0 e1
      let gp := get_point_left_right g0 g1
      (distance_points_bev_sq ep.1 gp.1 + distance_points_bev_sq ep.2 gp.2) / 2
  | _, _ => 0

/-- `PlaneDistanceMatching::is_better_than` (matching.rs lines 99-107),
embedded like the center-distance comparison. -/
def planeDistanceIsBetterThan (e g : DynamicObject) (t : ℚ) : Bool :=
  decide (0 < t) && decide (planeDistanceScoreSq e g < rsq t)

/-! ### BEV polygon intersection

`get_intersection_area` (matching.rs lines 172-207) builds the two
footprint polygons and calls the `geo` crate's
`BooleanOps::intersection(..).unsigned_area()`.  The footprints the source
feeds it are rotated rectangles, i.e. convex quadrilaterals listed
counter-clockwise, and on convex inputs the library computes the exact
polygon intersection; we embed that operation as Sutherland-Hodgman
clipping over `ℚ` followed by the shoelace area. -/

/-- Whether `p` lies on or to the left of the directed edge `a → b`. -/
def insideEdge (a b p : ℚ × ℚ) : Bool :=
  decide (0 ≤ (b.1 - a.1) * (p.2 - a.2) - (b.2 - a.2) * (p.1 - a.1))

/-- Intersection point of the lines through `a, b` and `p, q`. -/
def lineIntersect (a b p q : ℚ × ℚ) : ℚ × ℚ :=
  let d1 : ℚ × ℚ := (b.1 - a.1, b.2 - a.2)
  let d2 : ℚ × ℚ := (q.1 - p.1, q.2 - p.2)
  let denom := d1.1 * d2.2 - d1.2 * d2.1
  let t := ((p.1 - a.1) * d2.2 - (p.2 - a.2) * d2.1) / denom
  (a.1 + t * d1.1, a.2 + t * d1.2)

/-- One Sutherland-Hodgman pass: clip the closed polygon `subject` by the
half plane left of the directed edge `a → b`.  `first` is the subject's
first vertex, used to close the ring. -/
def clipEdgeAux (a b first : ℚ × ℚ) : List (ℚ × ℚ) → List (ℚ × ℚ)
  | [] => []
  | [v] =>
      let w := first
      if insideEdge a b v then
        if insideEdge a b w then [v] else [v, lineIntersect a b v w]
      else if insideEdge a b w then [lineIntersect a b v w] else []
  | v :: w :: rest =>
      let tail := clipEdgeAux a b first (w :: rest)
      if insideEdge a b v then
        if insideEdge a b w then v :: tail else v :: lineIntersect a b v w :: tail
      else if insideEdge a b w then lineIntersect a b v w :: tail else tail

/-- Clip `subject` by the half plane of one clip edge. -/
def clipEdge (subject : List (ℚ × ℚ)) (a b : ℚ × ℚ) : List (ℚ × ℚ) :=
  match subject with
  | [] => []
  | v :: _ => clipEdgeAux a b v subject

/-- Successive cyclic edges of a polygon. -/
def polygonEdges (poly : List (ℚ × ℚ)) : List ((ℚ × ℚ) × (ℚ × ℚ)) :=
  match poly with
  | [] => []
  | v :: _ => poly.zip (poly.drop 1 ++ [v])

/-- Sutherland-Hodgman clipping of convex `subject` by convex
counter-clockwise `clip`. -/
def polygonIntersection (subject clip : List (ℚ × ℚ)) : List (ℚ × ℚ) :=
  (polygonEdges clip).foldl (fun s e => clipEdge s e.1 e.2) subject

/-- Twice the signed shoelace area of a closed polygon. -/
def shoelaceDouble : List (ℚ × ℚ) → ℚ
  | [] => 0
  | v :: rest =>
      let rec go (first : ℚ × ℚ) : List (ℚ × ℚ) → ℚ
        | [] => 0
        | [w] => w.1 * first.2 - first.1 * w.2
        | w :: u :: tail => (w.1 * u.2 - u.1 * w.2) + go first (u :: tail)
      go v (v :: rest)

/-- Unsigned polygon area (`unsigned_area` on the clipped result). -/
def polygonArea (poly : List (ℚ × ℚ)) : ℚ := qabs (shoelaceDouble poly) / 2

/-- The BEV footprint polygon built by the `get_polygon` closure
(matching.rs lines 176-201); the repeated first coordinate only closes the
ring, so the polygon is the four footprint corners. -/
def DynamicObject.polygon (o : DynamicObject) : List (ℚ × ℚ) :=
  o.footprint.map fun p => (p.x, p.y)

/-- `get_intersection_area` (matching.rs lines 172-207). -/
def get_intersection_area (e g : DynamicObject) : ℚ :=
  polygonArea (polygonIntersection e.polygon g.polygon)

/-- `Iou2dMatching::calculate_matching_score` (matching.rs lines 114-128):
IoU of the footprint areas, with the `union == 0 → 0` guard. -/
def iou2dScore (e g : DynamicObject) : ℚ :=
  let interArea := get_intersection_area e g
  let unionArea := e.area + g.area - interArea
  if unionArea = 0 then 0 else interArea / unionArea

/-- `Iou2dMatching::is_better_than` (matching.rs lines 130-138):
`threshold < iou`. -/
def iou2dIsBetterThan (e g : DynamicObject) (t : ℚ) : Bool :=
  decide (t < iou2dScore e g)

/-- `get_intersection_height` (matching.rs lines 209-237), verbatim: the
MINIMUM of the two lower z-bounds, the MAXIMUM of the two upper z-bounds,
and `max 0 (max_z - min_z)`. -/
def get_intersection_height (e g : DynamicObject) : ℚ :=
  let min_z := qmin (e.position.z - e.size.z * (1 / 2)) (g.position.z - g.size.z * (1 / 2))
  let max_z := qmax (e.position.z + e.size.z * (1 / 2)) (g.position.z + g.size.z * (1 / 2))
  qmax 0 (max_z - min_z)

/-- `get_intersection_volume` (matching.rs lines 239-245). -/
def get_intersection_volume (e g : DynamicObject) : ℚ :=
  get_intersection_area e g * get_intersection_height e g

/-- `Iou3dMatching::calculate_matching_score` (matching.rs lines 145-159). -/
def iou3dScore (e g : DynamicObject) : ℚ :=
  let interVolume := get_intersection_volume e g
  let unionVolume := e.volume + g.volume - interVolume
  if unionVolume = 0 then 0 else interVolume / unionVolume

/-- `Iou3dMatching::is_better_than` (matching.rs lines 161-169). -/
def iou3dIsBetterThan (e g : DynamicObject) (t : ℚ) : Bool :=
  decide (t < iou3dScore e g)

/-- `enum MatchingMode` (matching.rs lines 20-25). -/
inductive MatchingMode where
  | centerDistance
  | planeDistance
  | iou2d
  | iou3d
deriving DecidableEq, Repr

/-- `enum MatchingError` (matching.rs lines 11-17). -/
inductive MatchingError where
  | internalError
  | valueError
deriving DecidableEq, Repr

/-- Dispatch of `is_better_than` over the four strategies, as selected in
`PerceptionResult::is_result_correct` (result.rs lines 174-181). -/
def modeIsBetterThan (mode : MatchingMode) (e g : DynamicObject) (t : ℚ) : Bool :=
  match mode with
  | .centerDistance => centerDistanceIsBetterThan e g t
  | .planeDistance => planeDistanceIsBetterThan e g t
  | .iou2d => iou2dIsBetterThan e g t
  | .iou3d => iou3dIsBetterThan e g t

/-- `PerceptionResult` (result.rs lines 16-20). -/
structure PerceptionResult where
  estimated_object : DynamicObject
  ground_truth_object : Option DynamicObject
deriving DecidableEq, Repr

/-- `PerceptionResult::is_result_correct` (result.rs lines 169-189): the
strategy's `is_better_than` when a ground truth is present, `false`
otherwise, always wrapped in `Ok`. -/
def is_result_correct (r : PerceptionResult) (mode : MatchingMode) (t : ℚ) :
    Except MatchingError Bool :=
  Except.ok
    (match r.ground_truth_object with
     | some gt => modeIsBetterThan mode r.estimated_object gt t
     | none => false)

/-! ## Greedy assignment (`get_perception_results`, `src/result.rs`) -/

/-- Result of a computation that may `panic!` (out-of-bounds index or
`unwrap` on `None`/`Err`). -/
inductive Crash (α : Type) where
  | crash : Crash α
  | ok : α → Crash α
deriving DecidableEq, Repr

/-- `usize::MAX`, the initial index of the row-minimum fold. -/
def USIZE_MAX : Nat := 2 ^ 64 - 1

/-- The accumulator comparison `a < *b` of the fold in
`get_perception_results` (result.rs lines 256-268).  The initial
accumulator value `f64::MAX` is modelled as `none`: every score the table
holds is a finite center distance, strictly below `f64::MAX`, so the
comparison is `false` exactly when the accumulator is still initial. -/
def accLt (a : Option ℚ) (b : ℚ) : Bool :=
  match a with
  | some a => decide (a < b)
  | none => false

/-- The fold of result.rs lines 256-268: scan one score-table row,
tracking the index of the numerically smallest `Some` score (later entries
win ties, as in the source's `else` branch). -/
def rowMinFold (row : List (Option ℚ)) : Nat × Option ℚ :=
  let rec go : List (Option ℚ) → Nat → Nat × Option ℚ → Nat × Option ℚ
    | [], _, acc => acc
    | b :: rest, bIdx, acc =>
        match b with
        | some b =>
            if accLt acc.2 b then go rest (bIdx + 1) acc
            else go rest (bIdx + 1) (bIdx, some b)
        | none => go rest (bIdx + 1) acc
  go row 0 (USIZE_MAX, none)

/-- `get_score_table` (result.rs lines 306-327) instantiated, as in
`get_perception_results`, with `CenterDistanceMatching`: an N x M table
holding `Some score` where labels agree and `None` elsewhere.  Scores are
stored squared; the fold above only compares scores and
`sqrt a < sqrt b ↔ a < b` on nonnegative values. -/
def get_score_table (est gt : List DynamicObject) : List (List (Option ℚ)) :=
  est.map fun e =>
    gt.map fun g =>
      if e.label = g.label then some (centerDistanceScoreSq e g) else none

/-- `get_fp_perception_results` (result.rs lines 292-297). -/
def get_fp_perception_results (est : List DynamicObject) : List PerceptionResult :=
  est.map fun o => { estimated_object := o, ground_truth_object := none }

/-- Mutable state of the assignment loops: the accumulated results and the
two shrinking object lists. -/
structure AssignState where
  results : List PerceptionResult
  estList : List DynamicObject
  gtList : List DynamicObject
deriving Repr

/-- Body of the inner loop of result.rs lines 255-278 for one score-table
row: pick the row minimum, index the two shrinking lists (crashing exactly
where the Rust side panics, in the source's struct-field evaluation order:
estimation first, ground truth second), blank the chosen column of this
row, and remove both chosen objects by position. -/
def processRow (estIdx : Nat) (row : List (Option ℚ)) (st : AssignState) :
    Crash (List (Option ℚ) × AssignState) :=
  let gtIdx := (rowMinFold row).1
  match st.estList.get? estIdx with
  | none => .crash
  | some e =>
      match st.gtList.get? gtIdx with
      | none => .crash
      | some g =>
          .ok (row.set gtIdx none,
            { results := st.results ++ [{ estimated_object := e, ground_truth_object := some g }]
              estList := st.estList.eraseIdx estIdx
              gtList := st.gtList.eraseIdx gtIdx })

/-- The inner `for (est_idx, row_table) in score_table.iter_mut().enumerate()`
loop: every row of the table is visited, rows mutated in place. -/
def innerLoop (rows : List (List (Option ℚ))) (estIdx : Nat) (st : AssignState) :
    Crash (List (List (Option ℚ)) × AssignState) :=
  match rows with
  | [] => .ok ([], st)
  | row :: rest =>
      match processRow estIdx row st with
      | .crash => .crash
      | .ok (row2, st2) =>
          match innerLoop rest (estIdx + 1) st2 with
          | .crash => .crash
          | .ok (rest2, st3) => .ok (row2 :: rest2, st3)

/-- The outer `for _ in 0..estimated_objects.len()` loop (result.rs line
254), which repeats the full inner pass. -/
def outerLoop (n : Nat) (table : List (List (Option ℚ))) (st : AssignState) :
    Crash AssignState :=
  match n with
  | 0 => .ok st
  | n + 1 =>
      match innerLoop table 0 st with
      | .crash => .crash
      | .ok (table2, st2) => outerLoop n table2 st2

/-- `get_perception_results` (result.rs lines 236-287): empty estimations
give an empty list, empty ground truths give all-false-positive results,
otherwise the greedy table walk runs and leftover estimations are appended
as false positives. -/
def get_perception_results (est gt : List DynamicObject) :
    Crash (List PerceptionResult) :=
  if est.length = 0 then .ok []
  else if gt.length = 0 then .ok (get_fp_perception_results est)
  else
    match outerLoop est.length (get_score_table est gt)
        { results := [], estList := est, gtList := gt } with
    | .crash => .crash
    | .ok st =>
        .ok (st.results ++
          if 0 < st.estList.length then get_fp_perception_results st.estList else [])

/-! ## Frame-level TP/FP/FN separation (`src/result/frame.rs`, `src/threshold.rs`) -/

/-- `get_label_threshold` (threshold.rs lines 80-95): when the label is in
`target_labels`, return the threshold at its first position (the
`thresholds[index]` access panics when the threshold list is shorter);
otherwise `None`. -/
def get_label_threshold (label : Label) (targets : List Label) (thresholds : List ℚ) :
    Crash (Option ℚ) :=
  if targets.contains label then
    match thresholds.get? (targets.indexOf label) with
    | some v => .ok (some v)
    | none => .crash
  else .ok none

/-- `separate_tp_fp_results` (frame.rs lines 88-114): per result, look up
the threshold for the estimated label; a `Some` threshold routes the
result into the TP or FP list by `is_result_correct(..).unwrap()` (the
unwrap is the crash on the `Err` branch), a `None` skips the result.  The
source's own `MatchingResult` wrapper is always `Ok` and is omitted. -/
def separate_tp_fp_results (results : List PerceptionResult) (targets : List Label)
    (mode : MatchingMode) (thresholds : List ℚ) :
    Crash (List PerceptionResult × List PerceptionResult) :=
  match results with
  | [] => .ok ([], [])
  | r :: rest =>
      match get_label_threshold r.estimated_object.label targets thresholds with
      | .crash => .crash
      | .ok none => separate_tp_fp_results rest targets mode thresholds
      | .ok (some th) =>
          match is_result_correct r mode th with
          | .error _ => .crash
          | .ok b =>
              match separate_tp_fp_results rest targets mode thresholds with
              | .crash => .crash
              | .ok (tp, fp) => .ok (if b then (r :: tp, fp) else (tp, r :: fp))

/-- `is_fn_object` (frame.rs lines 141-153): `false` as soon as some TP
result's ground truth is weak-equal to the input ground truth. -/
def is_fn_object (gt : DynamicObject) (tps : List PerceptionResult) : Bool :=
  match tps with
  | [] => true
  | tp :: rest =>
      match tp.ground_truth_object with
      | some g => if g.weakEq gt then false else is_fn_object gt rest
      | none => is_fn_object gt rest

/-- `extract_fn_objects` (frame.rs lines 122-135). -/
def extract_fn_objects (gts : List DynamicObject) (tps : List PerceptionResult) :
    List DynamicObject :=
  match gts with
  | [] => []
  | g :: rest =>
      if is_fn_object g tps then g :: extract_fn_objects rest tps
      else extract_fn_objects rest tps

/-! ## TP metrics (`src/metrics/tp_metrics.rs`) -/

/-- `TPMetricsAP::get_value` (tp_metrics.rs lines 17-24): `1.0` for a pair
with a ground truth, `0.0` otherwise. -/
def tpMetricsAP (r : PerceptionResult) : ℚ :=
  match r.ground_truth_object with
  | some _ => 1
  | none => 0

/-- Heading branch of `TPMetricsAPH::get_value` (tp_metrics.rs lines
33-40) as a function of the two heading angles.  The headings themselves
(`DynamicObject::heading`, an `atan`) are transcendental reals, so they are
taken here as inputs *measured in units of pi*: with `h = yaw / pi` the
source's steps become exact rational ones, `PI < diff` is `1 < d`,
`2.0 * PI - diff` is `2 - d`, and `1.0 - diff / PI` is `1 - d`; the final
`.max(0.0).min(1.0)` is `min (max _ 0) 1`. -/
def tpMetricsAPHOfHeadings (h1 h2 : ℚ) : ℚ :=
  let diff := qabs (h1 - h2)
  let wrapped := if 1 < diff then 2 - diff else diff
  qmin (qmax (1 - wrapped) 0) 1

/-! ## AP calculation (`src/metrics/detection.rs`) -/

/-- The two in-place prefix-sum folds of `calculate_tp_fp` (detection.rs
lines 222-230). -/
def prefixSums (l : List ℚ) : List ℚ :=
  let rec go (acc : ℚ) : List ℚ → List ℚ
    | [] => []
    | x :: rest => (acc + x) :: go (acc + x) rest
  go 0 l

/-- Per-result raw TP/FP contributions of `calculate_tp_fp` (detection.rs
lines 214-220): a correct result contributes `tp_metrics.get_value` to the
TP column, any other contributes `1.0` to the FP column; the
`is_result_correct(..).unwrap()` crash is kept. -/
def rawTpFp (results : List PerceptionResult) (tpv : PerceptionResult → ℚ)
    (mode : MatchingMode) (t : ℚ) : Crash (List ℚ × List ℚ) :=
  match results with
  | [] => .ok ([], [])
  | r :: rest =>
      match is_result_correct r mode t with
      | .error _ => .crash
      | .ok b =>
          match rawTpFp rest tpv mode t with
          | .crash => .crash
          | .ok (tps, fps) =>
              .ok (if b then ((tpv r) :: tps, 0 :: fps) else (0 :: tps, 1 :: fps))

/-- `Ap::calculate_tp_fp` (detection.rs lines 198-234), generic over the
`TPMetrics` strategy exactly as the source is. -/
def calculate_tp_fp (results : List PerceptionResult) (num_gt : Nat)
    (tpv : PerceptionResult → ℚ) (mode : MatchingMode) (t : ℚ) :
    Crash (List ℚ × List ℚ) :=
  if results.isEmpty && num_gt == 0 then .ok ([], [])
  else
    match rawTpFp results tpv mode t with
    | .crash => .crash
    | .ok (tps, fps) => .ok (prefixSums tps, prefixSums fps)

/-- `Ap::calculate_precision_recall` (detection.rs lines 170-191):
`precision[i] = tp[i] / (1 + i)` and `recall[i] = tp[i] / num_gt` (left at
`0.0` when `num_gt` is zero), over lists initialised to `0.0` of the
results' length; an entry beyond the tp-list's length stays `0.0`, which
`getD _ 0` reproduces. -/
def calculate_precision_recall (results : List PerceptionResult) (num_gt : Nat)
    (tp_list : List ℚ) : List ℚ × List ℚ :=
  if results.isEmpty && num_gt == 0 then ([], [])
  else
    ((List.range results.length).map fun i => tp_list.getD i 0 / (1 + (i : ℚ)),
     (List.range results.length).map fun i =>
       if 0 < num_gt then tp_list.getD i 0 / (num_gt : ℚ) else 0)

/-- Scan loop of `Ap::interpolate_precision_recall` (detection.rs lines
157-162): visit the given indices in order, compare the last kept
precision with `precision_list[i]` and append the point when it is
strictly larger.  Out-of-range accesses crash like the source's
indexing. -/
def interpLoop (ps rs : List ℚ) : List Nat → List ℚ × List ℚ → Crash (List ℚ × List ℚ)
  | [], acc => .ok acc
  | i :: rest, (maxPs, maxRs) =>
      match maxPs.getLast? with
      | none => .crash
      | some m =>
          match ps.get? i with
          | none => .crash
          | some pi =>
              if m < pi then
                match rs.get? i with
                | none => .crash
                | some ri => interpLoop ps rs rest (maxPs ++ [pi], maxRs ++ [ri])
              else interpLoop ps rs rest (maxPs, maxRs)

/-- `Ap::interpolate_precision_recall` (detection.rs lines 147-165): under
the degenerate guard return empty lists, otherwise seed the kept lists
with the LAST precision/recall pair (`last().unwrap()` crashes on empty
input) and scan indices `0 .. recall_list.len() - 1` FORWARD. -/
def interpolate_precision_recall (results : List PerceptionResult) (num_gt : Nat)
    (ps rs : List ℚ) : Crash (List ℚ × List ℚ) :=
  if results.isEmpty && num_gt == 0 then .ok ([], [])
  else
    match ps.getLast? with
    | none => .crash
    | some p0 =>
        match rs.getLast? with
        | none => .crash
        | some r0 => interpLoop ps rs (List.range (rs.length - 1)) ([p0], [r0])

/-- An `f64` output that is either a number or the `f64::NAN` marker. -/
inductive AFloat where
  | nan : AFloat
  | val : ℚ → AFloat
deriving DecidableEq, Repr

/-- Integration loop of `Ap::calculate_ap` (detection.rs lines 135-139):
`ap += max_precision[i] * (max_recall[i] - max_recall[i + 1])`. -/
def apSumLoop (maxPs maxRs : List ℚ) : List Nat → ℚ → Crash ℚ
  | [], acc => .ok acc
  | i :: rest, acc =>
      match maxPs.get? i, maxRs.get? i, maxRs.get? (i + 1) with
      | some p, some r, some r2 => apSumLoop maxPs maxRs rest (acc + p * (r - r2))
      | _, _, _ => .crash

/-- `Ap::calculate_ap` (detection.rs lines 118-141): the TP/FP, precision/
recall and interpolation chain; an empty interpolated list yields
`f64::NAN`, otherwise the envelope is integrated. -/
def calculate_ap (results : List PerceptionResult) (num_gt : Nat)
    (tpv : PerceptionResult → ℚ) (mode : MatchingMode) (t : ℚ) : Crash AFloat :=
  match calculate_tp_fp results num_gt tpv mode t with
  | .crash => .crash
  | .ok (tp_list, _) =>
      let pr := calculate_precision_recall results num_gt tp_list
      match interpolate_precision_recall results num_gt pr.1 pr.2 with
      | .crash => .crash
      | .ok (maxPs, maxRs) =>
          if maxPs.isEmpty then .ok .nan
          else
            match apSumLoop maxPs maxRs (List.range (maxPs.length - 1)) 0 with
            | .crash => .crash
            | .ok ap => .ok (.val ap)

/-! ## Detection metrics report (`src/metrics/detection.rs` lines 10-60) -/

/-- `DetectionMetricsScore` (detection.rs lines 10-15); the `HashMap` of
score lists is kept as an association list with the two inserted keys. -/
structure DetectionMetricsScore where
  target_labels : List Label
  matching_mode : MatchingMode
  thresholds : List ℚ
  scores : List (String × List AFloat)
deriving DecidableEq, Repr

/-- Loop body of `DetectionMetricsScore::new` (detection.rs lines 36-47):
for the `i`-th (label, threshold) pair, the two `unwrap`ed map lookups and
the AP and APH computations, written into the `i`-th slots of the two
score lists. -/
def dmsLoop (resMap : Label → Option (List PerceptionResult))
    (gtMap : Label → Option Nat) (mode : MatchingMode)
    (apM aphM : PerceptionResult → ℚ) :
    List (Label × ℚ) → Nat → List AFloat → List AFloat →
      Crash (List AFloat × List AFloat)
  | [], _, apList, aphList => .ok (apList, aphList)
  | (lab, th) :: rest, i, apList, aphList =>
      match resMap lab with
      | none => .crash
      | some results =>
          match gtMap lab with
          | none => .crash
          | some num_gt =>
              match calculate_ap results num_gt apM mode th with
              | .crash => .crash
              | .ok ap =>
                  match calculate_ap results num_gt aphM mode th with
                  | .crash => .crash
                  | .ok aph =>
                      dmsLoop resMap gtMap mode apM aphM rest (i + 1)
                        (apList.set i ap) (aphList.set i aph)

/-- `DetectionMetricsScore::new` (detection.rs lines 25-59), generic over
the two `TPMetrics` instantiations (the source passes `TPMetricsAP` and
`TPMetricsAPH`; the latter's heading extraction is transcendental, see
`tpMetricsAPHOfHeadings`).  The score lists start as `vec![0.0; n]` and
the loop runs over `target_labels.zip(thresholds)`. -/
def detection_metrics_score_new (resMap : Label → Option (List PerceptionResult))
    (gtMap : Label → Option Nat) (targets : List Label) (mode : MatchingMode)
    (thresholds : List ℚ) (apM aphM : PerceptionResult → ℚ) :
    Crash DetectionMetricsScore :=
  let n := targets.length
  match dmsLoop resMap gtMap mode apM aphM (targets.zip thresholds) 0
      (List.replicate n (AFloat.val 0)) (List.replicate n (AFloat.val 0)) with
  | .crash => .crash
  | .ok (apList, aphList) =>
      .ok { target_labels := targets
            matching_mode := mode
            thresholds := thresholds
            scores := [("AP", apList), ("APH", aphList)] }

/-! ## Spec-side definitions

Definitions in this section follow the specification's words (they are the
comparison side of refinement claims), not the source. -/

/-- Modelled from the spec: the true interval intersection length of the
two vertical spans `[center_z - height/2, center_z + height/2]`, zero when
the spans are disjoint. -/
def specVerticalOverlap (e g : DynamicObject) : ℚ :=
  qmax 0
    (qmin (e.position.z + e.size.z * (1 / 2)) (g.position.z + g.size.z * (1 / 2)) -
      qmax (e.position.z - e.size.z * (1 / 2)) (g.position.z - g.size.z * (1 / 2)))

/-- Modelled from the spec: the APH tp-value `1 - err/pi` clamped to
`[0, 1]`, where `err` is the absolute heading difference wrapped by
`2*pi - diff` when it exceeds `pi`; headings in units of pi as in
`tpMetricsAPHOfHeadings`. -/
def specAphValue (h1 h2 : ℚ) : ℚ :=
  let err := if 1 < qabs (h1 - h2) then 2 - qabs (h1 - h2) else qabs (h1 - h2)
  qmax 0 (qmin 1 (1 - err))

/-- One scan pass over (precision, recall) points: keep a point exactly
when its precision exceeds the running kept maximum `cur`. -/
def scanKeep (cur : ℚ) : List (ℚ × ℚ) → List (ℚ × ℚ)
  | [] => []
  | p :: rest => if cur < p.1 then p :: scanKeep p.1 rest else scanKeep cur rest

/-- Amended-spec envelope: the last (precision, recall) pair followed by a
FORWARD scan of the remaining points in index order. -/
def forwardEnvelope (pairs : List (ℚ × ℚ)) : List (ℚ × ℚ) :=
  match pairs.getLast? with
  | none => []
  | some p0 => p0 :: scanKeep p0.1 pairs.dropLast

/-- Modelled from the spec: the claimed envelope that starts from the last
(precision, recall) pair and scans BACKWARD. -/
def backwardEnvelope (pairs : List (ℚ × ℚ)) : List (ℚ × ℚ) :=
  match pairs.getLast? with
  | none => []
  | some p0 => p0 :: scanKeep p0.1 pairs.dropLast.reverse

/-- The claimed integral: sum over consecutive envelope points of
`precision[i] * (recall[i] - recall[i+1])`. -/
def apSumPairs : List (ℚ × ℚ) → ℚ
  | [] => 0
  | [_] => 0
  | a :: b :: rest => a.1 * (a.2 - b.2) + apSumPairs (b :: rest)

/-- Modelled from the spec, claim wording: AP integrated over the
backward-scan envelope. -/
def specApBackward (ps rs : List ℚ) : ℚ := apSumPairs (backwardEnvelope (ps.zip rs))

/-- Amended claim: AP integrated over the forward-scan envelope. -/
def specApForward (ps rs : List ℚ) : ℚ := apSumPairs (forwardEnvelope (ps.zip rs))

/-- Spec-side pure threshold lookup: the threshold at the label's first
index in `target_labels`, `none` when the label is absent. -/
def labelThresholdLookup (label : Label) (targets : List Label) (thresholds : List ℚ) :
    Option ℚ :=
  if targets.contains label then thresholds.get? (targets.indexOf label) else none

/-- Spec-side TP predicate of claim C6: the result has a ground truth and
the mode's match predicate holds at the threshold indexed by its label. -/
def isTpSpec (mode : MatchingMode) (targets : List Label) (thresholds : List ℚ)
    (r : PerceptionResult) : Bool :=
  match labelThresholdLookup r.estimated_object.label targets thresholds,
      r.ground_truth_object with
  | some t, some g => modeIsBetterThan mode r.estimated_object g t
  | _, _ => false

/-- Spec-side FP predicate: a looked-up threshold exists and the result is
not a true positive. -/
def isFpSpec (mode : MatchingMode) (targets : List Label) (thresholds : List ℚ)
    (r : PerceptionResult) : Bool :=
  (labelThresholdLookup r.estimated_object.label targets thresholds).isSome &&
    !(isTpSpec mode targets thresholds r)

/-- Spec-side predicate of claim C7: some TP result's ground truth is
weak-equal to `g`. -/
def hasWeakEqTp (g : DynamicObject) (tps : List PerceptionResult) : Bool :=
  tps.any fun tp =>
    match tp.ground_truth_object with
    | some g2 => g2.weakEq g
    | none => false

/-! ## Concrete instances used by the closed theorems -/

/-- A car-like object of the spec's self-match test: position `[1,1,0]`,
identity orientation, size `[2,1,1]`. -/
def carAt (px py pz : ℚ) : DynamicObject :=
  { timestamp := 10000
    frame_id := .baseLink
    position := ⟨px, py, pz⟩
    orientation := ⟨1, 0, 0, 0⟩
    size := ⟨2, 1, 1⟩
    velocity := none
    confidence := 1
    label := .car
    pointcloud_num := some 1000
    uuid := some "111" }

/-- The self-match object of claim C5. -/
def selfMatchObject : DynamicObject := carAt 1 1 0

/-- The pedestrian twin used by the C2 failing input. -/
def pedestrianAt (px py pz : ℚ) : DynamicObject :=
  { carAt px py pz with label := .pedestrian }

/-- C1 failing input: two estimations. -/
def estListC1 : List DynamicObject := [carAt 1 1 0, carAt 5 5 0]

/-- C1 failing input: two ground truths of the same labels. -/
def gtListC1 : List DynamicObject := [carAt 1 1 0, carAt 5 5 0]

/-- C4 counterexample results: two true positives followed by two false
positives (one matched too far for threshold 1, one unmatched). -/
def resultsC4 : List PerceptionResult :=
  [{ estimated_object := carAt 1 1 0, ground_truth_object := some (carAt 1 1 0) },
   { estimated_object := carAt 2 2 0, ground_truth_object := some (carAt 2 2 0) },
   { estimated_object := carAt 9 9 0, ground_truth_object := some (carAt 1 1 0) },
   { estimated_object := carAt 9 9 0, ground_truth_object := none }]

/-- Frame-separation sample: a true positive, a matched-but-distant false
positive, and a pedestrian estimation outside the target labels. -/
def resultsC6 : List PerceptionResult :=
  [{ estimated_object := carAt 1 1 0, ground_truth_object := some (carAt 1 1 0) },
   { estimated_object := carAt 9 9 0, ground_truth_object := some (carAt 1 1 0) },
   { estimated_object := pedestrianAt 1 1 0, ground_truth_object := none }]

/-! ## Evaluation helper lemmas -/

/-- The BEV polygon of `carAt 1 1 z` for the two heights used below. -/
theorem carAt_polygon_eval (pz : ℚ) :
    (carAt 1 1 pz).polygon = [(3 / 2, 2), (1 / 2, 2), (1 / 2, 0), (3 / 2, 0)] := by
  norm_num [DynamicObject.polygon, DynamicObject.footprint, DynamicObject.rotation_matrix,
    quaternion2rotation, rowMul, vadd, carAt, rsq]

set_option maxHeartbeats 1000000 in
/-- Clipping the self-match footprint against itself returns it unchanged. -/
theorem self_polygon_intersection_eval :
    polygonIntersection [((3 : ℚ) / 2, 2), (1 / 2, 2), (1 / 2, 0), (3 / 2, 0)]
      [((3 : ℚ) / 2, 2), (1 / 2, 2), (1 / 2, 0), (3 / 2, 0)] =
      [(3 / 2, 2), (1 / 2, 2), (1 / 2, 0), (3 / 2, 0)] := by
  norm_num [polygonIntersection, polygonEdges, clipEdge, clipEdgeAux, insideEdge,
    lineIntersect]

/-- The BEV intersection area of two `carAt 1 1 _` boxes is the full
footprint area 2. -/
theorem carAt_intersection_area_eval (pz qz : ℚ) :
    get_intersection_area (carAt 1 1 pz) (carAt 1 1 qz) = 2 := by
  rw [get_intersection_area, carAt_polygon_eval, carAt_polygon_eval,
    self_polygon_intersection_eval]
  norm_num [polygonArea, shoelaceDouble, shoelaceDouble.go, qabs]

/-! ## Claim theorems -/

/-- C1.  The claim states that `get_perception_results` always returns one
result per estimation.  The code instead panics on two estimations and two
ground truths of matching labels: the greedy loop indexes the shrinking
`estimated_object_list` with the fixed score-table row index.  This
theorem evaluates the embedding at that failing input: the call crashes
rather than producing a 2-element list. -/
theorem c1_result_count_code_bug :
    estListC1.length = 2 ∧ gtListC1.length = 2 ∧
      get_perception_results estListC1 gtListC1 = Crash.crash := by
  refine ⟨rfl, rfl, ?_⟩
  norm_num [get_perception_results, estListC1, gtListC1, get_score_table, outerLoop,
    innerLoop, processRow, rowMinFold, rowMinFold.go, accLt, centerDistanceScoreSq,
    distance_points_sq, carAt, rsq, USIZE_MAX, get_fp_perception_results, List.set,
    List.eraseIdx, List.get?]

/-- C2.  The claim states that no core operation aborts on in-range input.
The code panics twice: (a) `get_perception_results` with one estimation
whose label matches no ground truth reaches the `usize::MAX` fold index
and indexes the ground-truth list out of bounds; (b) `calculate_ap` with
an empty result list but a positive ground-truth count calls
`last().unwrap()` on the empty precision list. -/
theorem c2_no_abort_code_bug :
    get_perception_results [carAt 1 1 0] [pedestrianAt 1 1 0] = Crash.crash ∧
      calculate_ap [] 1 tpMetricsAP .centerDistance 1 = Crash.crash := by
  constructor
  · norm_num [get_perception_results, get_score_table, outerLoop, innerLoop,
      processRow, rowMinFold, rowMinFold.go, accLt, carAt, pedestrianAt, USIZE_MAX,
      get_fp_perception_results, List.set, List.eraseIdx, List.get?]
  · norm_num [calculate_ap, calculate_tp_fp, rawTpFp, calculate_precision_recall,
      interpolate_precision_recall, prefixSums, prefixSums.go]

/-- C3.  The claim states that the Iou3d vertical overlap is the true
interval intersection of the two vertical spans.  `get_intersection_height`
instead takes the min of the two lower bounds and the max of the two upper
bounds - the length of the spans' union.  At two boxes of height 1
centered at z 0 and z 10 the spans are disjoint: the true overlap is 0 but
the code yields 11, and the resulting Iou3d score is the impossible value
-11/9. -/
theorem c3_vertical_overlap_code_bug :
    get_intersection_height (carAt 1 1 0) (carAt 1 1 10) = 11 ∧
      specVerticalOverlap (carAt 1 1 0) (carAt 1 1 10) = 0 ∧
      iou3dScore (carAt 1 1 0) (carAt 1 1 10) = -11 / 9 := by
  have hh : get_intersection_height (carAt 1 1 0) (carAt 1 1 10) = 11 := by
    norm_num [get_intersection_height, carAt, qmin, qmax]
  have ha := carAt_intersection_area_eval 0 10
  refine ⟨hh, ?_, ?_⟩
  · norm_num [specVerticalOverlap, carAt, qmin, qmax]
  · rw [iou3dScore, get_intersection_volume, ha, hh]
    norm_num [DynamicObject.volume, DynamicObject.area, carAt]

/-- The footprint of the self-match object. -/
theorem self_footprint_eval : selfMatchObject.footprint =
    [⟨3 / 2, 2, 0⟩, ⟨1 / 2, 2, 0⟩, ⟨1 / 2, 0, 0⟩, ⟨3 / 2, 0, 0⟩] := by
  norm_num [selfMatchObject, carAt, DynamicObject.footprint,
    DynamicObject.rotation_matrix, quaternion2rotation, rowMul, vadd, rsq]

set_option maxHeartbeats 1000000 in
/-- The self-match footprint sorted by BEV norm ascending. -/
theorem self_sorted_footprint_eval :
    sortByBevNorm [(⟨3 / 2, 2, 0⟩ : Vec3), ⟨1 / 2, 2, 0⟩, ⟨1 / 2, 0, 0⟩, ⟨3 / 2, 0, 0⟩] =
      [⟨1 / 2, 0, 0⟩, ⟨3 / 2, 0, 0⟩, ⟨1 / 2, 2, 0⟩, ⟨3 / 2, 2, 0⟩] := by
  norm_num [sortByBevNorm, insertByBevNorm, bevNormSq, rsq]

/-- C5, counterexample.  The claim asserts `is_match` holds for all four
strategies at every positive threshold.  The threshold 1 is positive, and
the self-match Iou2d score is exactly 1, but `Iou2dMatching::is_better_than`
requires `threshold < iou`, so the match fails. -/
theorem c5_positive_threshold_cex :
    (0 : ℚ) < 1 ∧ iou2dScore selfMatchObject selfMatchObject = 1 ∧
      iou2dIsBetterThan selfMatchObject selfMatchObject 1 = false := by
  have hi2 : iou2dScore selfMatchObject selfMatchObject = 1 := by
    rw [iou2dScore, selfMatchObject, carAt_intersection_area_eval]
    norm_num [DynamicObject.area, carAt]
  refine ⟨by norm_num, hi2, ?_⟩
  rw [iou2dIsBetterThan, hi2]
  norm_num

/-- C5, amended.  Self match of the object at position `[1,1,0]`, identity
orientation, size `[2,1,1]`: the CenterDistance and PlaneDistance scores
are 0 (embedded as their vanishing squares; `sqrt s = 0 ↔ s = 0`), the
Iou2d and Iou3d scores are 1, the two distance strategies match at every
positive threshold, and the two IoU strategies match exactly at thresholds
strictly below 1 (the counterexample above forces this amendment at
thresholds ≥ 1). -/
theorem c5_self_match_amended :
    centerDistanceScoreSq selfMatchObject selfMatchObject = 0 ∧
      planeDistanceScoreSq selfMatchObject selfMatchObject = 0 ∧
      iou2dScore selfMatchObject selfMatchObject = 1 ∧
      iou3dScore selfMatchObject selfMatchObject = 1 ∧
      (∀ t : ℚ, 0 < t →
        centerDistanceIsBetterThan selfMatchObject selfMatchObject t = true ∧
          planeDistanceIsBetterThan selfMatchObject selfMatchObject t = true) ∧
      (∀ t : ℚ, t < 1 →
        iou2dIsBetterThan selfMatchObject selfMatchObject t = true ∧
          iou3dIsBetterThan selfMatchObject selfMatchObject t = true) := by
  have hc : centerDistanceScoreSq selfMatchObject selfMatchObject = 0 := by
    norm_num [centerDistanceScoreSq, distance_points_sq, selfMatchObject, carAt, rsq]
  have hp : planeDistanceScoreSq selfMatchObject selfMatchObject = 0 := by
    unfold planeDistanceScoreSq
    rw [self_footprint_eval, self_sorted_footprint_eval]
    norm_num [get_point_left_right, distance_points_bev_sq, rsq]
  have hi2 : iou2dScore selfMatchObject selfMatchObject = 1 := by
    rw [iou2dScore, selfMatchObject, carAt_intersection_area_eval]
    norm_num [DynamicObject.area, carAt]
  have hi3 : iou3dScore selfMatchObject selfMatchObject = 1 := by
    rw [iou3dScore, get_intersection_volume, selfMatchObject,
      carAt_intersection_area_eval]
    norm_num [get_intersection_height, DynamicObject.volume, DynamicObject.area,
      carAt, qmin, qmax]
  refine ⟨hc, hp, hi2, hi3, fun t ht => ⟨?_, ?_⟩, fun t ht => ⟨?_, ?_⟩⟩
  · rw [centerDistanceIsBetterThan, hc]
    simp [rsq, ht, mul_pos ht ht]
  · rw [planeDistanceIsBetterThan, hp]
    simp [rsq, ht, mul_pos ht ht]
  · rw [iou2dIsBetterThan, hi2]
    simp [ht]
  · rw [iou3dIsBetterThan, hi3]
    simp [ht]

/-- C5, witness: the amended theorem applied at the concrete positive
threshold 1/2 (which is also below 1). -/
theorem c5_self_match_amended_witness :
    centerDistanceIsBetterThan selfMatchObject selfMatchObject (1 / 2) = true ∧
      planeDistanceIsBetterThan selfMatchObject selfMatchObject (1 / 2) = true ∧
      iou2dIsBetterThan selfMatchObject selfMatchObject (1 / 2) = true ∧
      iou3dIsBetterThan selfMatchObject selfMatchObject (1 / 2) = true :=
  ⟨(c5_self_match_amended.2.2.2.2.1 (1 / 2) (by norm_num)).1,
   (c5_self_match_amended.2.2.2.2.1 (1 / 2) (by norm_num)).2,
   (c5_self_match_amended.2.2.2.2.2 (1 / 2) (by norm_num)).1,
   (c5_self_match_amended.2.2.2.2.2 (1 / 2) (by norm_num)).2⟩

/-- The per-result TP/FP pass never crashes (`is_result_correct` always
returns `Ok`) and preserves the results' length. -/
theorem rawTpFp_ok (results : List PerceptionResult)
    (tpv : PerceptionResult → ℚ) (mode : MatchingMode) (t : ℚ) :
    ∃ tps fps, rawTpFp results tpv mode t = .ok (tps, fps) ∧
      tps.length = results.length ∧ fps.length = results.length := by
  induction results with
  | nil => exact ⟨[], [], rfl, rfl, rfl⟩
  | cons r rest ih =>
      obtain ⟨tps, fps, heq, hl1, hl2⟩ := ih
      rw [rawTpFp, is_result_correct]
      rw [heq]
      cases hb : (match r.ground_truth_object with
        | some gt => modeIsBetterThan mode r.estimated_object gt t
        | none => false) with
      | true =>
          refine ⟨tpv r :: tps, 0 :: fps, ?_, by simp [hl1], by simp [hl2]⟩
          simp [hb]
      | false =>
          refine ⟨0 :: tps, 1 :: fps, ?_, by simp [hl1], by simp [hl2]⟩
          simp [hb]

/-- Length preservation of the prefix-sum loop body. -/
theorem prefixSums_go_length (acc : ℚ) (l : List ℚ) :
    (prefixSums.go acc l).length = l.length := by
  induction l generalizing acc with
  | nil => rfl
  | cons x rest ih => simp [prefixSums.go, ih]

/-- The prefix-sum folds preserve list length. -/
theorem prefixSums_length (l : List ℚ) : (prefixSums l).length = l.length :=
  prefixSums_go_length 0 l

/-- Bridge between the source's index-based interpolation scan and the
spec-side `scanKeep` over the remaining (precision, recall) points. -/
theorem interpLoop_range_spec (ps rs : List ℚ) (hlen : ps.length = rs.length) :
    ∀ (m j : Nat) (maxPs maxRs : List ℚ) (cur : ℚ),
      maxPs.getLast? = some cur → j + m + 1 = rs.length →
      interpLoop ps rs (List.range' j m) (maxPs, maxRs) =
        .ok (maxPs ++ (scanKeep cur (((ps.zip rs).dropLast).drop j)).map Prod.fst,
             maxRs ++ (scanKeep cur (((ps.zip rs).dropLast).drop j)).map Prod.snd) := by
  intro m
  induction m with
  | zero =>
      intro j maxPs maxRs cur hne hjm
      have hseg : ((ps.zip rs).dropLast).drop j = [] := by
        refine List.drop_eq_nil_of_le ?_
        simp only [List.length_dropLast, List.length_zip, hlen, min_self]
        omega
      simp [interpLoop, hseg, scanKeep, List.range']
  | succ m ih =>
      intro j maxPs maxRs cur hne hjm
      have hjd : j < ((ps.zip rs).dropLast).length := by
        simp only [List.length_dropLast, List.length_zip, hlen, min_self]
        omega
      have hjz : j < (ps.zip rs).length := by
        simp only [List.length_zip, hlen, min_self]; omega
      have hjp : j < ps.length := by rw [hlen]; omega
      have hjr : j < rs.length := by omega
      have hseg : ((ps.zip rs).dropLast).drop j =
          (ps[j], rs[j]) :: ((ps.zip rs).dropLast).drop (j + 1) := by
        rw [List.drop_eq_getElem_cons hjd, List.getElem_dropLast, List.getElem_zip]
      have hpj : ps.get? j = some ps[j] := by
        rw [List.get?_eq_getElem?, List.getElem?_eq_getElem hjp]
      have hrj : rs.get? j = some rs[j] := by
        rw [List.get?_eq_getElem?, List.getElem?_eq_getElem hjr]
      rw [List.range'_succ]
      simp only [interpLoop, hne, hpj, hrj]
      by_cases hcmp : cur < ps[j]
      · rw [if_pos hcmp,
          ih (j + 1) (maxPs ++ [ps[j]]) (maxRs ++ [rs[j]]) ps[j]
            (List.getLast?_concat _) (by omega)]
        rw [hseg]
        simp only [scanKeep, if_pos hcmp, List.map_cons, List.append_assoc,
          List.cons_append, List.nil_append]
      · rw [if_neg hcmp, ih (j + 1) maxPs maxRs cur hne (by omega)]
        rw [hseg]
        simp only [scanKeep, if_neg hcmp]

/-- `interpolate_precision_recall` on a nonempty result list returns the
forward-scan envelope, projected to its two coordinate lists. -/
theorem interpolate_spec (results : List PerceptionResult) (num_gt : Nat)
    (ps rs : List ℚ) (hres : results ≠ []) (hlen : ps.length = rs.length)
    (hne : ps ≠ []) :
    interpolate_precision_recall results num_gt ps rs =
      .ok ((forwardEnvelope (ps.zip rs)).map Prod.fst,
           (forwardEnvelope (ps.zip rs)).map Prod.snd) := by
  have hrsne : rs ≠ [] := by
    intro h
    apply hne
    have := hlen
    rw [h] at this
    simpa using List.length_eq_zero.mp this
  have hplen : 0 < ps.length := List.length_pos.mpr hne
  have hrlen : 0 < rs.length := List.length_pos.mpr hrsne
  have hp0 : ps.getLast? = some (ps.getLast hne) := List.getLast?_eq_getLast ps hne
  have hr0 : rs.getLast? = some (rs.getLast hrsne) := List.getLast?_eq_getLast rs hrsne
  have hzlen : (ps.zip rs).length = rs.length := by
    simp [List.length_zip, hlen, min_self]
  have hzne : ps.zip rs ≠ [] := by
    intro h
    rw [h] at hzlen
    simp at hzlen
    omega
  have hzlast : (ps.zip rs).getLast? = some (ps.getLast hne, rs.getLast hrsne) := by
    have h1 : (ps.zip rs).getLast? = (ps.zip rs)[(ps.zip rs).length - 1]? :=
      List.getLast?_eq_getElem? _
    have hlt : (ps.zip rs).length - 1 < (ps.zip rs).length := by
      rw [hzlen]
      omega
    rw [h1, List.getElem?_eq_getElem hlt, List.getElem_zip]
    congr 1
    congr 1
    · rw [List.getLast_eq_getElem]
      congr 1
      rw [hzlen, hlen]
    · rw [List.getLast_eq_getElem]
      congr 1
      rw [hzlen]
  rw [interpolate_precision_recall]
  rw [if_neg (by simp [hres])]
  simp only [hp0, hr0, List.range_eq_range']
  rw [interpLoop_range_spec ps rs hlen (rs.length - 1) 0 [ps.getLast hne]
    [rs.getLast hrsne] (ps.getLast hne) (by simp) (by omega)]
  rw [forwardEnvelope, hzlast]
  simp [List.drop_zero, scanKeep]

/-- Bridge between the source's index-based integration loop and the
spec-side `apSumPairs` over the remaining envelope points. -/
theorem apSumLoop_range_spec (maxPs maxRs : List ℚ) (hlen : maxPs.length = maxRs.length) :
    ∀ (m j : Nat) (acc : ℚ), j + m + 1 = maxPs.length →
      apSumLoop maxPs maxRs (List.range' j m) acc =
        .ok (acc + apSumPairs ((maxPs.zip maxRs).drop j)) := by
  have hzlen : (maxPs.zip maxRs).length = maxPs.length := by
    simp [List.length_zip, hlen, min_self]
  intro m
  induction m with
  | zero =>
      intro j acc hjm
      have hj : j < (maxPs.zip maxRs).length := by omega
      have hseg : (maxPs.zip maxRs).drop j = [(maxPs.zip maxRs)[j]] := by
        rw [List.drop_eq_getElem_cons hj, List.drop_eq_nil_of_le (by omega)]
      simp [List.range', apSumLoop, hseg, apSumPairs]
  | succ m ih =>
      intro j acc hjm
      have hj : j < (maxPs.zip maxRs).length := by omega
      have hj1 : j + 1 < (maxPs.zip maxRs).length := by omega
      have hjp : j < maxPs.length := by omega
      have hjr : j < maxRs.length := by omega
      have hjr1 : j + 1 < maxRs.length := by omega
      have hpj : maxPs.get? j = some maxPs[j] := by
        rw [List.get?_eq_getElem?, List.getElem?_eq_getElem hjp]
      have hrj : maxRs.get? j = some maxRs[j] := by
        rw [List.get?_eq_getElem?, List.getElem?_eq_getElem hjr]
      have hrj1 : maxRs.get? (j + 1) = some maxRs[j + 1] := by
        rw [List.get?_eq_getElem?, List.getElem?_eq_getElem hjr1]
      have hseg : (maxPs.zip maxRs).drop j =
          (maxPs[j], maxRs[j]) :: (maxPs.zip maxRs).drop (j + 1) := by
        rw [List.drop_eq_getElem_cons hj, List.getElem_zip]
      have hseg1 : (maxPs.zip maxRs).drop (j + 1) =
          (maxPs[j + 1], maxRs[j + 1]) :: (maxPs.zip maxRs).drop (j + 2) := by
        rw [List.drop_eq_getElem_cons hj1, List.getElem_zip]
      rw [List.range'_succ]
      simp only [apSumLoop, hpj, hrj, hrj1]
      rw [ih (j + 1) (acc + maxPs[j] * (maxRs[j] - maxRs[j + 1])) (by omega)]
      rw [hseg, hseg1, apSumPairs, ← hseg1]
      ring_nf

/-- Both precision and recall lists have the results' length. -/
theorem cpr_lengths (results : List PerceptionResult) (num_gt : Nat)
    (tp_list : List ℚ) (hres : results ≠ []) :
    (calculate_precision_recall results num_gt tp_list).1.length = results.length ∧
      (calculate_precision_recall results num_gt tp_list).2.length = results.length := by
  rw [calculate_precision_recall, if_neg (by simp [hres])]
  simp

/-- C4, amended.  The claim describes the envelope as built by a backward
scan; the source's loop `for i in 0..recall_list.len() - 1` scans FORWARD
from the first point (the counterexample below separates the two).  As
amended: for every nonempty result list, `calculate_ap` succeeds and
equals the claimed sum `precision[i] * (recall[i] - recall[i+1])` over
consecutive points of the envelope seeded with the last (precision,
recall) pair and extended by the forward scan keeping each point whose
precision exceeds the running kept maximum. -/
theorem c4_forward_envelope_ap (results : List PerceptionResult) (num_gt : Nat)
    (tpv : PerceptionResult → ℚ) (mode : MatchingMode)
    (t : ℚ) (h : results ≠ []) :
    ∃ tp_list fp_list,
      calculate_tp_fp results num_gt tpv mode t = .ok (tp_list, fp_list) ∧
      calculate_ap results num_gt tpv mode t =
        .ok (.val (specApForward
          (calculate_precision_recall results num_gt tp_list).1
          (calculate_precision_recall results num_gt tp_list).2)) := by
  obtain ⟨tps, fps, hraw, hl1, hl2⟩ := rawTpFp_ok results tpv mode t
  have htf : calculate_tp_fp results num_gt tpv mode t =
      .ok (prefixSums tps, prefixSums fps) := by
    rw [calculate_tp_fp, if_neg (by simp [h]), hraw]
  refine ⟨prefixSums tps, prefixSums fps, htf, ?_⟩
  obtain ⟨hpl, hrl⟩ := cpr_lengths results num_gt (prefixSums tps) h
  set ps := (calculate_precision_recall results num_gt (prefixSums tps)).1 with hps
  set rs := (calculate_precision_recall results num_gt (prefixSums tps)).2 with hrs
  have hlen : ps.length = rs.length := by omega
  have hpne : ps ≠ [] := by
    intro hx
    rw [hx] at hpl
    simp at hpl
    exact h (List.length_eq_zero.mp hpl.symm)
  have hinterp := interpolate_spec results num_gt ps rs h hlen hpne
  rw [calculate_ap, htf]
  simp only [hinterp]
  have hzlen2 : (ps.zip rs).length = rs.length := by
    simp [List.length_zip, hlen, min_self]
  have hzne : ps.zip rs ≠ [] := by
    intro hx
    rw [hx] at hzlen2
    simp at hzlen2
    rw [← hzlen2] at hrl
    exact h (List.length_eq_zero.mp hrl.symm)
  have hqs : (ps.zip rs).getLast?.isSome := List.getLast?_isSome.mpr hzne
  obtain ⟨q, hq⟩ := Option.isSome_iff_exists.mp hqs
  have henv : forwardEnvelope (ps.zip rs) = q :: scanKeep q.1 (ps.zip rs).dropLast := by
    rw [forwardEnvelope, hq]
  have hmapne : ((forwardEnvelope (ps.zip rs)).map Prod.fst).isEmpty = false := by
    rw [henv]
    simp
  rw [if_neg (by simp [hmapne])]
  have hmlen : ((forwardEnvelope (ps.zip rs)).map Prod.fst).length =
      ((forwardEnvelope (ps.zip rs)).map Prod.snd).length := by simp
  have hlenpos : 0 < ((forwardEnvelope (ps.zip rs)).map Prod.fst).length := by
    rw [henv]
    simp
  rw [List.range_eq_range']
  rw [apSumLoop_range_spec _ _ hmlen (((forwardEnvelope (ps.zip rs)).map Prod.fst).length - 1)
    0 0 (by omega)]
  rw [List.drop_zero, List.zip_map']
  have hmapid : (forwardEnvelope (ps.zip rs)).map (fun x => (x.1, x.2)) =
      forwardEnvelope (ps.zip rs) := by simp
  rw [hmapid, specApForward, zero_add]

/-- Cumulative TP/FP lists of the C4 input at CenterDistance threshold 1. -/
theorem c4_tp_fp_eval : calculate_tp_fp resultsC4 2 tpMetricsAP .centerDistance 1 =
    .ok ([1, 2, 2, 2], [0, 0, 1, 2]) := by
  norm_num [calculate_tp_fp, rawTpFp, is_result_correct, modeIsBetterThan,
    centerDistanceIsBetterThan, centerDistanceScoreSq, distance_points_sq, rsq,
    carAt, resultsC4, tpMetricsAP, prefixSums, prefixSums.go]

/-- Precision and recall lists of the C4 input. -/
theorem c4_precision_recall_eval : calculate_precision_recall resultsC4 2 [1, 2, 2, 2] =
    ([1, 1, 2 / 3, 1 / 2], [1 / 2, 1, 1, 1]) := by
  norm_num [calculate_precision_recall, resultsC4, List.range_succ, List.getD, List.get?]

/-- The source's interpolation on the C4 precision/recall lists. -/
theorem c4_interpolate_eval :
    interpolate_precision_recall resultsC4 2 [1, 1, 2 / 3, 1 / 2] [1 / 2, 1, 1, 1] =
      .ok ([1 / 2, 1], [1, 1 / 2]) := by
  norm_num [interpolate_precision_recall, interpLoop, resultsC4, List.range_succ,
    List.getLast?, List.get?]

/-- C4, counterexample.  On four results (TP, TP, FP, FP) with two ground
truths the precision list is `[1, 1, 2/3, 1/2]` and the recall list
`[1/2, 1, 1, 1]`.  The claimed backward-scan envelope keeps the points at
indices 3, 2, 1, whose recalls are all 1, so the claimed AP is 0; the
code's forward scan keeps only indices 3 and 0 and returns AP = 1/4. -/
theorem c4_backward_envelope_cex :
    calculate_ap resultsC4 2 tpMetricsAP .centerDistance 1 = .ok (.val (1 / 4)) ∧
      calculate_tp_fp resultsC4 2 tpMetricsAP .centerDistance 1 =
        .ok ([1, 2, 2, 2], [0, 0, 1, 2]) ∧
      calculate_precision_recall resultsC4 2 [1, 2, 2, 2] =
        ([1, 1, 2 / 3, 1 / 2], [1 / 2, 1, 1, 1]) ∧
      specApBackward [1, 1, 2 / 3, 1 / 2] [1 / 2, 1, 1, 1] = 0 ∧
      (1 / 4 : ℚ) ≠ 0 := by
  refine ⟨?_, c4_tp_fp_eval, c4_precision_recall_eval, ?_, by norm_num⟩
  · rw [calculate_ap, c4_tp_fp_eval]
    simp only [c4_precision_recall_eval, c4_interpolate_eval]
    norm_num [apSumLoop, List.range_succ, List.get?]
  · norm_num [specApBackward, backwardEnvelope, scanKeep, apSumPairs, List.zip,
      List.zipWith, List.getLast?, List.dropLast, List.reverse]

/-- C4, witness: the amended forward-envelope theorem applied to the
concrete nonempty C4 result list. -/
theorem c4_forward_envelope_ap_witness :
    resultsC4 ≠ [] ∧
      (∃ tp_list fp_list,
        calculate_tp_fp resultsC4 2 tpMetricsAP .centerDistance 1 = .ok (tp_list, fp_list) ∧
        calculate_ap resultsC4 2 tpMetricsAP .centerDistance 1 =
          .ok (.val (specApForward
            (calculate_precision_recall resultsC4 2 tp_list).1
            (calculate_precision_recall resultsC4 2 tp_list).2))) :=
  ⟨by simp [resultsC4],
   c4_forward_envelope_ap resultsC4 2 tpMetricsAP .centerDistance 1 (by simp [resultsC4])⟩

/-- With index-aligned lists the threshold lookup never panics and agrees
with the spec-side pure lookup. -/
theorem get_label_threshold_ok (label : Label)
    (targets : List Label) (thresholds : List ℚ)
    (h : targets.length ≤ thresholds.length) :
    get_label_threshold label targets thresholds =
      .ok (labelThresholdLookup label targets thresholds) := by
  rw [get_label_threshold, labelThresholdLookup]
  by_cases hc : targets.contains label
  · rw [if_pos hc, if_pos hc]
    have hmem : label ∈ targets := by simpa using hc
    have hidx : targets.indexOf label < targets.length := List.indexOf_lt_length.mpr hmem
    have hlt : targets.indexOf label < thresholds.length := by omega
    rw [List.get?_eq_getElem?, List.getElem?_eq_getElem hlt]
  · rw [if_neg hc, if_neg hc]

/-- The TP/FP separation loop computes the two filters of the spec-side
predicates whenever the threshold list covers the target labels. -/
theorem separate_eq_filters (results : List PerceptionResult)
    (targets : List Label) (mode : MatchingMode)
    (thresholds : List ℚ) (h : targets.length ≤ thresholds.length) :
    separate_tp_fp_results results targets mode thresholds =
      .ok (results.filter (isTpSpec mode targets thresholds),
           results.filter (isFpSpec mode targets thresholds)) := by
  induction results with
  | nil => rfl
  | cons r rest ih =>
      rw [separate_tp_fp_results, get_label_threshold_ok r.estimated_object.label
        targets thresholds h]
      cases hl : labelThresholdLookup r.estimated_object.label targets thresholds with
      | none =>
          have htp : isTpSpec mode targets thresholds r = false := by
            rw [isTpSpec, hl]
          have hfp : isFpSpec mode targets thresholds r = false := by
            rw [isFpSpec, hl]
            rfl
          simp only [List.filter_cons, htp, hfp, if_neg, Bool.false_eq_true, ite_false]
          exact ih
      | some t =>
          simp only [is_result_correct]
          cases hgt : r.ground_truth_object with
          | none =>
              have htp : isTpSpec mode targets thresholds r = false := by
                rw [isTpSpec, hl, hgt]
              have hfp : isFpSpec mode targets thresholds r = true := by
                rw [isFpSpec, hl, htp]
                rfl
              simp only [hgt, ih, List.filter_cons, htp, hfp]
              simp
          | some g =>
              cases hb : modeIsBetterThan mode r.estimated_object g t with
              | true =>
                  have htp : isTpSpec mode targets thresholds r = true := by
                    rw [isTpSpec, hl, hgt]
                    exact hb
                  have hfp : isFpSpec mode targets thresholds r = false := by
                    rw [isFpSpec, htp]
                    simp
                  simp only [hgt, hb, ih, List.filter_cons, htp, hfp]
                  simp
              | false =>
                  have htp : isTpSpec mode targets thresholds r = false := by
                    rw [isTpSpec, hl, hgt]
                    exact hb
                  have hfp : isFpSpec mode targets thresholds r = true := by
                    rw [isFpSpec, hl, htp]
                    rfl
                  simp only [hgt, hb, ih, List.filter_cons, htp, hfp]
                  simp

/-- `is_fn_object` holds exactly when no TP ground truth is weak-equal. -/
theorem is_fn_object_spec (g : DynamicObject)
    (tps : List PerceptionResult) :
    is_fn_object g tps = !hasWeakEqTp g tps := by
  induction tps with
  | nil => rfl
  | cons tp rest ih =>
      rw [is_fn_object, hasWeakEqTp]
      cases hgt : tp.ground_truth_object with
      | none =>
          simp only [List.any_cons, hgt]
          rw [ih, hasWeakEqTp]
          simp
      | some g2 =>
          simp only [List.any_cons, hgt]
          cases hw : g2.weakEq g with
          | true => simp [hw]
          | false =>
              simp only [hw, Bool.false_or]
              rw [ih, hasWeakEqTp]
              simp

/-- `extract_fn_objects` is the filter keeping unmatched ground truths. -/
theorem extract_fn_eq_filter (gts : List DynamicObject)
    (tps : List PerceptionResult) :
    extract_fn_objects gts tps = gts.filter (fun g => !hasWeakEqTp g tps) := by
  induction gts with
  | nil => rfl
  | cons g rest ih =>
      rw [extract_fn_objects, is_fn_object_spec, List.filter_cons]
      cases hw : hasWeakEqTp g tps with
      | true => simp [hw, ih]
      | false => simp [hw, ih]

theorem c7_fn_objects_weak_eq (gts : List DynamicObject)
    (tps : List PerceptionResult) :
    extract_fn_objects gts tps = gts.filter (fun g => !hasWeakEqTp g tps) ∧
      (extract_fn_objects gts tps).Sublist gts ∧
      (extract_fn_objects gts tps).all (fun g => !hasWeakEqTp g tps) = true ∧
      ∀ (ts : Int) (fid : FrameID) (pos : Vec3)
        (ori : Quat) (s1 s2 : Vec3)
        (v1 v2 : Option Vec3) (c1 c2 : ℚ) (lab : Label)
        (pn1 pn2 : Option Int) (u1 u2 : Option String) (b : DynamicObject),
        DynamicObject.weakEq ⟨ts, fid, pos, ori, s1, v1, c1, lab, pn1, u1⟩ b =
          DynamicObject.weakEq ⟨ts, fid, pos, ori, s2, v2, c2, lab, pn2, u2⟩ b := by
  refine ⟨extract_fn_eq_filter gts tps, ?_, ?_, ?_⟩
  · rw [extract_fn_eq_filter]
    exact List.filter_sublist gts
  · rw [extract_fn_eq_filter]
    rw [List.all_eq_true]
    intro x hx
    exact (List.mem_filter.mp hx).2
  · intro ts fid pos ori s1 s2 v1 v2 c1 c2 lab pn1 pn2 u1 u2 b
    rfl

/-- The source's `.max(0.0).min(1.0)` equals the spec's clamp to `[0,1]`. -/
theorem clamp_comm (x : ℚ) : qmin (qmax x 0) 1 = qmax 0 (qmin 1 x) := by
  unfold qmin qmax
  split_ifs <;> linarith

/-- C9.  The APH tp-value (headings in units of pi) equals the claimed
formula: 1 minus the heading error over pi, the error being the absolute
difference wrapped by `2*pi - diff` when above pi, clamped to `[0,1]`.
In particular a difference of exactly pi gives 0, a difference of 0 gives
1, and the AP tp-value is 1 for every pair holding a ground truth. -/
theorem c9_aph_tp_value :
    (∀ h1 h2 : ℚ, tpMetricsAPHOfHeadings h1 h2 = specAphValue h1 h2) ∧
      (∀ h : ℚ, tpMetricsAPHOfHeadings h (h + 1) = 0) ∧
      (∀ h : ℚ, tpMetricsAPHOfHeadings h h = 1) ∧
      (∀ (e g : DynamicObject),
        tpMetricsAP { estimated_object := e, ground_truth_object := some g } = 1) := by
  refine ⟨?_, ?_, ?_, fun e g => rfl⟩
  · intro h1 h2
    rw [tpMetricsAPHOfHeadings, specAphValue]
    exact clamp_comm _
  · intro h
    have hd : h - (h + 1) = -1 := by ring
    rw [tpMetricsAPHOfHeadings]
    norm_num [qabs, hd, qmin, qmax]
  · intro h
    have hd : h - h = 0 := by ring
    rw [tpMetricsAPHOfHeadings]
    norm_num [qabs, hd, qmin, qmax]

/-- C8.  With no results and zero ground truths, `calculate_ap` returns
the `f64::NAN` marker for every TP metric, matching mode and threshold,
and `DetectionMetricsScore::new` stores that NaN unchanged in both the
"AP" and "APH" score lists; NaN is distinct from 0. -/
theorem c8_degenerate_ap_nan :
    (∀ (tpv : PerceptionResult → ℚ) (mode : MatchingMode)
        (t : ℚ), calculate_ap [] 0 tpv mode t = .ok .nan) ∧
      (∀ (lab : Label) (mode : MatchingMode) (t : ℚ)
          (aphM : PerceptionResult → ℚ),
        detection_metrics_score_new
            (fun l => if l = lab then some [] else none)
            (fun l => if l = lab then some 0 else none)
            [lab] mode [t] tpMetricsAP aphM =
          .ok { target_labels := [lab], matching_mode := mode, thresholds := [t],
                scores := [("AP", [.nan]), ("APH", [.nan])] }) ∧
      AFloat.nan ≠ AFloat.val 0 := by
  have hap : ∀ (tpv : PerceptionResult → ℚ)
      (mode : MatchingMode) (t : ℚ),
      calculate_ap [] 0 tpv mode t = .ok .nan := by
    intro tpv mode t
    rw [calculate_ap, calculate_tp_fp]
    simp [calculate_precision_recall, interpolate_precision_recall]
  refine ⟨hap, ?_, by simp⟩
  intro lab mode t aphM
  rw [detection_metrics_score_new]
  simp only [List.zip_cons_cons, List.zip_nil_right, List.length_cons, List.length_nil,
    dmsLoop, if_pos rfl, hap, List.replicate, List.set]
  simp [hap]

/-- C10.  `is_result_correct` always returns `Ok` (its error branch is
unreachable) and returns `Ok(false)` when the ground truth is `None`;
consequently the `unwrap()` in the TP/FP accumulation never panics
(`calculate_tp_fp` cannot crash), and with index-aligned threshold lists
the TP/FP separation cannot crash either. -/
theorem c10_unwrap_never_panics :
    (∀ (r : PerceptionResult) (mode : MatchingMode) (t : ℚ),
      ∃ b, is_result_correct r mode t = .ok b) ∧
      (∀ (r : PerceptionResult) (mode : MatchingMode) (t : ℚ),
        r.ground_truth_object = none → is_result_correct r mode t = .ok false) ∧
      (∀ (results : List PerceptionResult) (num_gt : Nat)
          (tpv : PerceptionResult → ℚ) (mode : MatchingMode)
          (t : ℚ), calculate_tp_fp results num_gt tpv mode t ≠ .crash) ∧
      (∀ (results : List PerceptionResult)
          (targets : List Label) (mode : MatchingMode)
          (thresholds : List ℚ), targets.length ≤ thresholds.length →
        separate_tp_fp_results results targets mode thresholds ≠ .crash) := by
  refine ⟨fun r mode t => ⟨_, rfl⟩, ?_, ?_, ?_⟩
  · intro r mode t hgt
    simp [is_result_correct, hgt]
  · intro results num_gt tpv mode t
    rw [calculate_tp_fp]
    by_cases hg : (results.isEmpty && num_gt == 0) = true
    · simp [hg]
    · obtain ⟨tps, fps, hraw, -, -⟩ := rawTpFp_ok results tpv mode t
      simp [hg, hraw]
  · intro results targets mode thresholds h
    rw [separate_eq_filters results targets mode thresholds h]
    simp

/-- C6.  With the threshold list covering the target labels, the frame
separation returns exactly the filter of results that are TP (a ground
truth exists and the mode's predicate holds at the label-indexed
threshold) and the filter of results that are FP (a threshold exists and
the result is not TP); a result whose estimated label is absent from
`target_labels` satisfies neither predicate, so it lands in neither
list. -/
theorem c6_separate_tp_fp_filter (results : List PerceptionResult)
    (targets : List Label) (mode : MatchingMode) (thresholds : List ℚ)
    (h : targets.length ≤ thresholds.length) :
    separate_tp_fp_results results targets mode thresholds =
      .ok (results.filter (isTpSpec mode targets thresholds),
           results.filter (isFpSpec mode targets thresholds)) ∧
      ∀ r : PerceptionResult, targets.contains r.estimated_object.label = false →
        isTpSpec mode targets thresholds r = false ∧
          isFpSpec mode targets thresholds r = false := by
  refine ⟨separate_eq_filters results targets mode thresholds h, ?_⟩
  intro r hc
  have hm : r.estimated_object.label ∉ targets := by simpa using hc
  have hl : labelThresholdLookup r.estimated_object.label targets thresholds = none := by
    rw [labelThresholdLookup, if_neg (by simpa using hm)]
  constructor
  · rw [isTpSpec, hl]
  · rw [isFpSpec, hl]
    rfl

/-- C6, witness: the separation theorem applied to a concrete frame with a
true positive, a distant false positive and an out-of-scope pedestrian,
with the index-aligned hypothesis discharged by computation. -/
theorem c6_separate_tp_fp_filter_witness :
    separate_tp_fp_results resultsC6 [Label.car] .centerDistance [1] =
      .ok (resultsC6.filter (isTpSpec .centerDistance [Label.car] [1]),
           resultsC6.filter (isFpSpec .centerDistance [Label.car] [1])) :=
  (c6_separate_tp_fp_filter resultsC6 [Label.car] .centerDistance [1] (by decide)).1

/-- C10, witness: the totality theorem applied at concrete inputs - a
ground-truth-free result is `Ok(false)`, and the accumulation and
separation paths do not crash on the concrete C4 and C6 inputs. -/
theorem c10_unwrap_never_panics_witness :
    is_result_correct { estimated_object := carAt 1 1 0, ground_truth_object := none }
        .iou3d (1 / 2) = .ok false ∧
      calculate_tp_fp resultsC4 2 tpMetricsAP .centerDistance 1 ≠ .crash ∧
      separate_tp_fp_results resultsC6 [Label.car] .centerDistance [1] ≠ .crash :=
  ⟨c10_unwrap_never_panics.2.1 _ .iou3d (1 / 2) rfl,
   c10_unwrap_never_panics.2.2.1 resultsC4 2 tpMetricsAP .centerDistance 1,
   c10_unwrap_never_panics.2.2.2 resultsC6 [Label.car] .centerDistance [1] (by decide)⟩

end PerceptionEval
